import Mathlib

/-!
Shallow embedding of `src/bot.js` from the `server24-7` repository: a
Minecraft bot controller with a mutable `botState` record, connection
lifecycle handlers (`spawn`, `error`, `end`, `move`), a recursive async
patrol loop, and Express HTTP endpoints.

Positions and numeric config values are modelled as rationals; the
parts of the source that use `Math.cos` / `Math.sin` / `Math.sqrt`
are modelled over the reals. Event handlers and endpoints become pure
state-transition functions; the asynchronous patrol loop becomes a
function producing the list of events of one loop iteration.
-/

namespace Server247

/-- A 3-D coordinate as stored in `botState.position` / `botState.center`. -/
structure Point where
  x : ℚ
  y : ℚ
  z : ℚ
deriving DecidableEq, Repr

/-- `config.server` from `config.json`: target host and port. -/
structure ServerConfig where
  host : String
  port : ℚ
deriving DecidableEq, Repr

/-- `config.patrol` from `config.json` (only the field the handlers read). -/
structure PatrolConfig where
  radius : ℚ
deriving DecidableEq, Repr

/-- The in-memory `config` object. -/
structure Config where
  server : ServerConfig
  patrol : PatrolConfig
deriving DecidableEq, Repr

/-- The mutable `botState` record of `bot.js` (the fields the modelled
handlers and endpoints read or write). -/
structure BotState where
  connected : Bool
  position : Point
  center : Point
  isPatrolling : Bool
  serverConfigured : Bool
  switchingServers : Bool
deriving DecidableEq, Repr

/-- A JSON value as it can arrive in an Express request body field. -/
inductive JSVal where
  | num (q : ℚ)
  | str (s : String)
  | boolean (b : Bool)
  | null
deriving DecidableEq, Repr

/-- JavaScript truthiness test `!v` on a request body field
(`none` models an absent / `undefined` field). -/
def jsFalsy : Option JSVal → Bool
  | none => true
  | some (.num q) => q == 0
  | some (.str s) => s == ""
  | some (.boolean b) => !b
  | some .null => true

/-- `typeof v === 'string'`. -/
def isStr : Option JSVal → Bool
  | some (.str _) => true
  | _ => false

/-- The string payload of a body field (only meaningful when `isStr`). -/
def strOf : Option JSVal → String
  | some (.str s) => s
  | _ => ""

/-- JavaScript `String.prototype.trim`: strip whitespace from both ends
of the string (modelled on the character list so it computes). -/
def jsTrim (s : String) : String :=
  String.mk (((s.data.dropWhile Char.isWhitespace).reverse.dropWhile
    Char.isWhitespace).reverse)

/-- `typeof v === 'number'`. -/
def isNum : Option JSVal → Bool
  | some (.num _) => true
  | _ => false

/-- The numeric payload of a body field (only meaningful when `isNum`). -/
def numOf : Option JSVal → ℚ
  | some (.num q) => q
  | _ => 0

/-- `typeof v === 'number'` returning the number itself. -/
def asNum : Option JSVal → Option ℚ
  | some (.num q) => some q
  | _ => none

/-- `Math.round(q * 10) / 10`, the per-coordinate rounding the `move`
handler applies (`Math.round` rounds half toward positive infinity,
as does `round` on ℚ). -/
def roundTenth (q : ℚ) : ℚ := (round (q * 10) : ℤ) / 10

/-- The rounded `newPosition` built in the `move` handler. -/
def roundPoint (p : Point) : Point :=
  { x := roundTenth p.x, y := roundTenth p.y, z := roundTenth p.z }

/-- The squared XZ distance
`(a.x - b.x)^2 + (a.z - b.z)^2` whose square root the `move` handler
compares against `config.patrol.radius + 2` (Y is ignored). -/
def distXZsq (a b : Point) : ℚ :=
  (a.x - b.x) ^ 2 + (a.z - b.z) ^ 2

/-- Decides `Math.sqrt d > c` for `0 ≤ d` without leaving ℚ:
`sqrt d > c` holds exactly when `c < 0` or `c^2 < d`.
`sqrtGT_iff` below proves this equals the real-number comparison. -/
def sqrtGT (d c : ℚ) : Bool := decide (c < 0) || decide (c ^ 2 < d)

/-- The `bot.on('move')` handler body (under `bot.entity` present):
round the raw position, replace the center when the rounded position is
more than `radius + 2` from it in XZ distance while connected, and store
the rounded position. -/
def onMove (config : Config) (s : BotState) (raw : Point) : BotState :=
  let newPosition := roundPoint raw
  let s1 :=
    if s.connected && sqrtGT (distXZsq newPosition s.center) (config.patrol.radius + 2) then
      { s with center := newPosition }
    else s
  { s1 with position := newPosition }

/-- The `bot.on('error')` handler: clear `connected` and `isPatrolling`. -/
def onError (s : BotState) : BotState :=
  { s with connected := false, isPatrolling := false }

/-- Result of the `bot.on('end')` handler: the new state, whether a
`createNewBot` reconnect was scheduled, and the scheduling delay. -/
structure EndResult where
  state : BotState
  reconnectScheduled : Bool
  reconnectDelayMs : ℕ
deriving DecidableEq, Repr

/-- The `bot.on('end')` handler: clear `connected` and `isPatrolling`;
schedule a 5-second reconnect unless `switchingServers`, in which case
only reset that flag. -/
def onEnd (s : BotState) : EndResult :=
  let s1 := { s with connected := false, isPatrolling := false }
  if s1.switchingServers then
    { state := { s1 with switchingServers := false },
      reconnectScheduled := false, reconnectDelayMs := 0 }
  else
    { state := s1, reconnectScheduled := true, reconnectDelayMs := 5000 }

/-- Result of the `bot.on('spawn')` handler: the new state plus the
delayed `startPatrolling` call it schedules. -/
structure SpawnResult where
  state : BotState
  autostartScheduled : Bool
  autostartDelayMs : ℕ
deriving DecidableEq, Repr

/-- The `bot.on('spawn')` handler: mark connected, overwrite the center
with the bot's spawn position, and schedule `startPatrolling` after
2000 ms. -/
def onSpawn (s : BotState) (spawnPos : Point) : SpawnResult :=
  { state := { s with connected := true, center := spawnPos },
    autostartScheduled := true, autostartDelayMs := 2000 }

/-- `startPatrolling()`: set `isPatrolling` (and launch `patrol()`) only
when connected and not already patrolling. -/
def startPatrolling (s : BotState) : BotState :=
  if s.connected && !s.isPatrolling then { s with isPatrolling := true } else s

/-- `stopPatrolling()`: clear `isPatrolling`. -/
def stopPatrolling (s : BotState) : BotState :=
  { s with isPatrolling := false }

/-- A 3-D coordinate over the reals, for `getRandomPoint` which uses
`Math.cos` / `Math.sin` / `Math.random`. -/
structure RPoint where
  x : ℝ
  y : ℝ
  z : ℝ

/-- `getRandomPoint()`: pick `angle = rand1 * 2π` and
`distance = rand2 * radius` (the two `Math.random()` draws are the
parameters `rand1`, `rand2` of the model) and offset the center by
`(cos angle * distance, 0, sin angle * distance)`. -/
noncomputable def getRandomPoint (center : Point) (radius : ℚ) (rand1 rand2 : ℝ) : RPoint :=
  let angle := rand1 * (2 * Real.pi)
  let distance := rand2 * (radius : ℝ)
  { x := (center.x : ℝ) + Real.cos angle * distance,
    y := (center.y : ℝ),
    z := (center.z : ℝ) + Real.sin angle * distance }

/-- The observable events of one iteration of the `patrol()` loop. -/
inductive PEvent where
  | stopped
  | genPoint
  | moveToPoint
  | wait2000
  | moveToCenter
  | wait3000
  | continuePatrol
  | loopEnded
  | caughtError
  | retryIn3000
  | noRetry
deriving DecidableEq, Repr

/-- The steps of the `try` block of `patrol()`, in source order. -/
def trySteps : List PEvent :=
  [.genPoint, .moveToPoint, .wait2000, .moveToCenter, .wait3000]

/-- One iteration of `patrol()` as the list of events it performs.
`entry` is `botState` when the iteration starts (the early-return
guard), `later` is `botState` when the continuation check or the
`catch` block runs (the loop is async, so the state may have changed),
and `errAt` says after how many `try` steps an exception is thrown
(`none`: no exception). -/
def patrolRun (entry : BotState) (errAt : Option (Fin 5)) (later : BotState) : List PEvent :=
  if !(entry.connected && entry.isPatrolling) then [.stopped]
  else
    match errAt with
    | none =>
        trySteps ++
          (if later.connected && later.isPatrolling then [.continuePatrol] else [.loopEnded])
    | some k =>
        trySteps.take k ++ [.caughtError] ++
          (if later.connected && later.isPatrolling then [.retryIn3000] else [.noRetry])

/-- `POST /api/set-center` request body. -/
structure SetCenterBody where
  x : Option JSVal
  y : Option JSVal
  z : Option JSVal
deriving DecidableEq, Repr

/-- Result of `POST /api/set-center`: new state, HTTP status, and the
center echoed in a success response. -/
structure SetCenterResult where
  state : BotState
  status : ℕ
  returnedCenter : Option Point
deriving DecidableEq, Repr

/-- `POST /api/set-center`: when `x`, `y`, `z` are all numbers set the
center to them (and start a `moveToCenter`), else respond 400. -/
def setCenter (s : BotState) (body : SetCenterBody) : SetCenterResult :=
  match asNum body.x, asNum body.y, asNum body.z with
  | some x, some y, some z =>
      let s1 := { s with center := { x := x, y := y, z := z } }
      { state := s1, status := 200, returnedCenter := some s1.center }
  | _, _, _ => { state := s, status := 400, returnedCenter := none }

/-- Result of `POST /api/toggle-patrol`. -/
structure ToggleResult where
  state : BotState
  status : ℕ
  isPatrolling : Bool
deriving DecidableEq, Repr

/-- `POST /api/toggle-patrol`: stop when patrolling, otherwise attempt
`startPatrolling`; always respond success with the resulting flag. -/
def togglePatrol (s : BotState) : ToggleResult :=
  let s1 := if s.isPatrolling then stopPatrolling s else startPatrolling s
  { state := s1, status := 200, isPatrolling := s1.isPatrolling }

/-- `POST /api/update-server` request body. -/
structure UpdateServerBody where
  host : Option JSVal
  port : Option JSVal
deriving DecidableEq, Repr

/-- Side effects of `POST /api/update-server`, in source order. -/
inductive UAction where
  | persistConfig
  | setSwitchFlag
  | quitBot
  | scheduleReconnect
deriving DecidableEq, Repr

/-- Result of `POST /api/update-server`. -/
structure UpdateResult where
  config : Config
  state : BotState
  status : ℕ
  filePersisted : Bool
  quitCalled : Bool
  reconnectDelayMs : Option ℕ
  actions : List UAction
deriving DecidableEq, Repr

/-- `POST /api/update-server`: reject a falsy / non-string /
blank-after-trim host with 400, reject a falsy / non-number /
out-of-range port with 400; otherwise update `config.server`, write
`config.json` (`writeOk` models whether `fs.writeFileSync` succeeds;
its failure hits the `catch` and answers 500 with the in-memory config
already mutated), set `switchingServers`, quit the bot when one exists,
and schedule a 2000 ms reconnect. -/
def updateServer (config : Config) (s : BotState) (body : UpdateServerBody)
    (botExists : Bool) (writeOk : Bool) : UpdateResult :=
  if jsFalsy body.host || !isStr body.host || (jsTrim (strOf body.host) == "") then
    { config := config, state := s, status := 400, filePersisted := false,
      quitCalled := false, reconnectDelayMs := none, actions := [] }
  else if jsFalsy body.port || !isNum body.port ||
      decide (numOf body.port < 1) || decide (numOf body.port > 65535) then
    { config := config, state := s, status := 400, filePersisted := false,
      quitCalled := false, reconnectDelayMs := none, actions := [] }
  else
    let newConfig :=
      { config with server := { host := jsTrim (strOf body.host), port := numOf body.port } }
    if !writeOk then
      { config := newConfig, state := s, status := 500, filePersisted := false,
        quitCalled := false, reconnectDelayMs := none, actions := [] }
    else
      let s1 := { s with switchingServers := true }
      let s2 := if botExists then { s1 with connected := false, isPatrolling := false } else s1
      { config := newConfig, state := s2, status := 200, filePersisted := true,
        quitCalled := botExists, reconnectDelayMs := some 2000,
        actions := [.persistConfig, .setSwitchFlag] ++
          (if botExists then [.quitBot] else []) ++ [.scheduleReconnect] }

/-- The claim's success condition for the host field: a string that is
nonempty after trimming. -/
def validHost (h : Option JSVal) : Prop :=
  ∃ hs, h = some (.str hs) ∧ jsTrim hs ≠ ""

/-- The claim's success condition for the port field: a number between
1 and 65535 inclusive. -/
def validPort (p : Option JSVal) : Prop :=
  ∃ q, p = some (.num q) ∧ 1 ≤ q ∧ q ≤ 65535

/-- Result of `POST /api/disconnect`. -/
structure DisconnectResult where
  state : BotState
  status : ℕ
  quitCalled : Bool
deriving DecidableEq, Repr

/-- `POST /api/disconnect`: clear `serverConfigured`, `connected`,
`isPatrolling`, set `switchingServers`, and quit the bot when one
exists. -/
def disconnect (s : BotState) (botExists : Bool) : DisconnectResult :=
  { state := { s with serverConfigured := false, connected := false,
                      isPatrolling := false, switchingServers := true },
    status := 200, quitCalled := botExists }

/-- The implicit invariant of C8: a patrolling bot is connected. -/
def PatrolInv (s : BotState) : Prop :=
  s.isPatrolling = true → s.connected = true

/-- A sample coordinate for witnesses. -/
def samplePoint : Point := { x := 0, y := 64, z := 0 }

/-- A connected, patrolling sample state for witnesses. -/
def sampleState : BotState :=
  { connected := true, position := samplePoint, center := samplePoint,
    isPatrolling := true, serverConfigured := true, switchingServers := false }

/-- A disconnected, idle sample state for witnesses. -/
def offState : BotState :=
  { connected := false, position := samplePoint, center := samplePoint,
    isPatrolling := false, serverConfigured := false, switchingServers := false }

/-- A sample configuration for witnesses. -/
def sampleConfig : Config :=
  { server := { host := "localhost", port := 25565 }, patrol := { radius := 5 } }

/-! ## Theorems -/

/-- For `0 ≤ d`, the rational test `sqrtGT d c` decides the real
comparison `Math.sqrt d > c`. -/
theorem sqrtGT_iff (d c : ℚ) :
    sqrtGT d c = true ↔ (c : ℝ) < Real.sqrt (d : ℝ) := by
  unfold sqrtGT
  rcases lt_or_le c 0 with hc | hc
  · simp only [decide_eq_true_eq, Bool.or_eq_true]
    constructor
    · intro _
      calc (c : ℝ) < 0 := by exact_mod_cast hc
        _ ≤ Real.sqrt (d : ℝ) := Real.sqrt_nonneg _
    · intro _
      exact Or.inl hc
  · have hc' : (0 : ℝ) ≤ (c : ℝ) := by exact_mod_cast hc
    rw [Real.lt_sqrt hc']
    simp only [decide_eq_true_eq, Bool.or_eq_true]
    constructor
    · rintro (h | h)
      · exact absurd h (not_lt.mpr hc)
      · exact_mod_cast h
    · intro h
      exact Or.inr (by exact_mod_cast h)

/-- The squared XZ distance is nonnegative. -/
theorem distXZsq_nonneg (a b : Point) : 0 ≤ distXZsq a b := by
  unfold distXZsq
  positivity

/-- C1: when the entry guard passes, an error-free iteration of
`patrol` performs exactly: generate a random point, move to it, wait
2 s, move back to the center, wait 3 s, then either recurse or end the
loop; when the body throws after any number of completed steps, the
iteration continues into the catch block (`caughtError`) followed by a
retry decision rather than ending silently. -/
theorem patrol_loop_order (entry later : BotState)
    (hc : entry.connected = true) (hp : entry.isPatrolling = true) :
    (patrolRun entry none later =
      [.genPoint, .moveToPoint, .wait2000, .moveToCenter, .wait3000] ++
        (if later.connected && later.isPatrolling then [.continuePatrol] else [.loopEnded])) ∧
    (∀ k : Fin 5, ∃ pre d, patrolRun entry (some k) later = pre ++ [.caughtError, d] ∧
      (d = .retryIn3000 ∨ d = .noRetry)) := by
  constructor
  · simp [patrolRun, hc, hp, trySteps]
  · intro k
    refine ⟨trySteps.take k,
      if later.connected && later.isPatrolling then .retryIn3000 else .noRetry, ?_, ?_⟩
    · simp only [patrolRun, hc, hp, Bool.and_self, Bool.not_true, Bool.false_eq_true,
        if_false]
      cases h : later.connected && later.isPatrolling <;> simp
    · cases later.connected && later.isPatrolling <;> simp

/-- Witness for C1 at a concrete connected, patrolling state. -/
theorem patrol_loop_order_witness :
    (patrolRun sampleState none sampleState =
      [.genPoint, .moveToPoint, .wait2000, .moveToCenter, .wait3000] ++
        (if sampleState.connected && sampleState.isPatrolling then [.continuePatrol]
         else [.loopEnded])) ∧
    (∀ k : Fin 5, ∃ pre d,
      patrolRun sampleState (some k) sampleState = pre ++ [.caughtError, d] ∧
      (d = .retryIn3000 ∨ d = .noRetry)) :=
  patrol_loop_order sampleState sampleState rfl rfl

/-- C5: after an exception in the patrol body, a 3-second retry is
scheduled exactly when the bot is still connected and still patrolling
at the time the error is caught. -/
theorem patrol_error_retry (entry later : BotState) (k : Fin 5)
    (hc : entry.connected = true) (hp : entry.isPatrolling = true) :
    PEvent.retryIn3000 ∈ patrolRun entry (some k) later ↔
      later.connected = true ∧ later.isPatrolling = true := by
  have hnotin : PEvent.retryIn3000 ∉ trySteps.take (k : ℕ) := by
    intro hmem
    have := List.take_subset (k : ℕ) trySteps hmem
    simp [trySteps] at this
  simp only [patrolRun, hc, hp, Bool.and_self, Bool.not_true, Bool.false_eq_true, if_false]
  cases h1 : later.connected <;> cases h2 : later.isPatrolling <;>
    simp_all [List.mem_append]

/-- Witness for C5: at the concrete states, the retry event appears
exactly when the later state is connected and patrolling. -/
theorem patrol_error_retry_witness :
    PEvent.retryIn3000 ∈ patrolRun sampleState (some 0) offState ↔
      offState.connected = true ∧ offState.isPatrolling = true :=
  patrol_error_retry sampleState offState 0 rfl rfl

/-- C2: for a nonnegative configured radius and `Math.random()` draws
in `[0,1)`, the point returned by `getRandomPoint` is at XZ Euclidean
distance at most `config.patrol.radius` from the center, and its `y`
coordinate equals the center's. -/
theorem getRandomPoint_within_radius (center : Point) (radius : ℚ) (rand1 rand2 : ℝ)
    (hrad : 0 ≤ radius) (h0 : 0 ≤ rand2) (h1 : rand2 < 1) :
    Real.sqrt (((getRandomPoint center radius rand1 rand2).x - (center.x : ℝ)) ^ 2 +
        ((getRandomPoint center radius rand1 rand2).z - (center.z : ℝ)) ^ 2) ≤ (radius : ℝ) ∧
    (getRandomPoint center radius rand1 rand2).y = (center.y : ℝ) := by
  have hrad' : (0 : ℝ) ≤ (radius : ℝ) := by exact_mod_cast hrad
  have hdist : (0 : ℝ) ≤ rand2 * (radius : ℝ) := mul_nonneg h0 hrad'
  constructor
  · have hx : (getRandomPoint center radius rand1 rand2).x - (center.x : ℝ) =
        Real.cos (rand1 * (2 * Real.pi)) * (rand2 * (radius : ℝ)) := by
      simp [getRandomPoint]
    have hz : (getRandomPoint center radius rand1 rand2).z - (center.z : ℝ) =
        Real.sin (rand1 * (2 * Real.pi)) * (rand2 * (radius : ℝ)) := by
      simp [getRandomPoint]
    rw [hx, hz]
    have hpyth := Real.sin_sq_add_cos_sq (rand1 * (2 * Real.pi))
    have hcollect : (Real.cos (rand1 * (2 * Real.pi)) * (rand2 * (radius : ℝ))) ^ 2 +
        (Real.sin (rand1 * (2 * Real.pi)) * (rand2 * (radius : ℝ))) ^ 2 =
        (rand2 * (radius : ℝ)) ^ 2 := by
      nlinarith [hpyth]
    rw [hcollect, Real.sqrt_sq hdist]
    calc rand2 * (radius : ℝ) ≤ 1 * (radius : ℝ) :=
          mul_le_mul_of_nonneg_right (le_of_lt h1) hrad'
      _ = (radius : ℝ) := one_mul _
  · simp [getRandomPoint]

/-- Witness for C2 at center `samplePoint`, radius 5, draws 0 and 1/2. -/
theorem getRandomPoint_within_radius_witness :
    Real.sqrt (((getRandomPoint samplePoint 5 0 (1/2)).x - ((samplePoint.x : ℚ) : ℝ)) ^ 2 +
        ((getRandomPoint samplePoint 5 0 (1/2)).z - ((samplePoint.z : ℚ) : ℝ)) ^ 2) ≤
      ((5 : ℚ) : ℝ) ∧
    (getRandomPoint samplePoint 5 0 (1/2)).y = ((samplePoint.y : ℚ) : ℝ) :=
  getRandomPoint_within_radius samplePoint 5 0 (1/2) (by norm_num) (by norm_num) (by norm_num)

/-- C3: in the `move` handler, while connected (the center is always a
set object in `botState`), the center is replaced by the new rounded
position exactly when that position's XZ distance from the center
exceeds `radius + 2`; at distance at most `radius + 2` the center is
unchanged; and the stored position becomes the rounded position in both
cases. -/
theorem onMove_teleport_detection (config : Config) (s : BotState) (raw : Point)
    (hc : s.connected = true) :
    ((onMove config s raw).position = roundPoint raw) ∧
    (((config.patrol.radius : ℝ) + 2 <
        Real.sqrt ((distXZsq (roundPoint raw) s.center : ℚ) : ℝ)) →
      (onMove config s raw).center = roundPoint raw) ∧
    ((Real.sqrt ((distXZsq (roundPoint raw) s.center : ℚ) : ℝ) ≤
        (config.patrol.radius : ℝ) + 2) →
      (onMove config s raw).center = s.center) := by
  have hbridge := sqrtGT_iff (distXZsq (roundPoint raw) s.center) (config.patrol.radius + 2)
  have hcast : ((config.patrol.radius + 2 : ℚ) : ℝ) = (config.patrol.radius : ℝ) + 2 := by
    push_cast
    ring
  rw [hcast] at hbridge
  refine ⟨?_, ?_, ?_⟩
  · unfold onMove
    cases h : s.connected && sqrtGT (distXZsq (roundPoint raw) s.center)
        (config.patrol.radius + 2) <;> simp [h]
  · intro hfar
    have hgt : sqrtGT (distXZsq (roundPoint raw) s.center) (config.patrol.radius + 2) = true :=
      hbridge.mpr hfar
    unfold onMove
    simp [hc, hgt]
  · intro hnear
    have hgt : sqrtGT (distXZsq (roundPoint raw) s.center) (config.patrol.radius + 2) = false := by
      rcases Bool.eq_false_or_eq_true
          (sqrtGT (distXZsq (roundPoint raw) s.center) (config.patrol.radius + 2)) with h | h
      · exact absurd (hbridge.mp h) (not_lt.mpr hnear)
      · exact h
    unfold onMove
    simp [hc, hgt]

/-- Witness for C3 at the sample configuration and state. -/
theorem onMove_teleport_detection_witness :
    ((onMove sampleConfig sampleState { x := 100, y := 64, z := 100 }).position =
      roundPoint { x := 100, y := 64, z := 100 }) ∧
    (((sampleConfig.patrol.radius : ℝ) + 2 <
        Real.sqrt ((distXZsq (roundPoint { x := 100, y := 64, z := 100 })
          sampleState.center : ℚ) : ℝ)) →
      (onMove sampleConfig sampleState { x := 100, y := 64, z := 100 }).center =
        roundPoint { x := 100, y := 64, z := 100 }) ∧
    ((Real.sqrt ((distXZsq (roundPoint { x := 100, y := 64, z := 100 })
          sampleState.center : ℚ) : ℝ) ≤ (sampleConfig.patrol.radius : ℝ) + 2) →
      (onMove sampleConfig sampleState { x := 100, y := 64, z := 100 }).center =
        sampleState.center) :=
  onMove_teleport_detection sampleConfig sampleState { x := 100, y := 64, z := 100 } rfl

/-- C4: the `end` handler clears `connected` and `isPatrolling`, and
schedules a reconnect exactly when `switchingServers` is false, in which
case the flag is left false; when `switchingServers` is true it only
resets the flag. A successful `/api/update-server` request sets
`switchingServers` (before quitting, see its action list), so running
the `end` handler on the resulting state schedules no reconnect. -/
theorem reconnect_handling (s sw : BotState) (config : Config) (body : UpdateServerBody) :
    ((onEnd s).state.connected = false) ∧
    ((onEnd s).state.isPatrolling = false) ∧
    ((onEnd s).reconnectScheduled = true ↔ s.switchingServers = false) ∧
    (s.switchingServers = true → (onEnd s).state.switchingServers = false) ∧
    ((updateServer config sw body true true).status = 200 →
      (updateServer config sw body true true).state.switchingServers = true ∧
      (updateServer config sw body true true).actions =
        [.persistConfig, .setSwitchFlag, .quitBot, .scheduleReconnect] ∧
      (onEnd (updateServer config sw body true true).state).reconnectScheduled = false) := by
  refine ⟨?_, ?_, ?_, ?_, ?_⟩
  · unfold onEnd
    cases h : s.switchingServers <;> simp [h]
  · unfold onEnd
    cases h : s.switchingServers <;> simp [h]
  · unfold onEnd
    cases h : s.switchingServers <;> simp [h]
  · intro h
    unfold onEnd
    simp [h]
  · intro h200
    unfold updateServer at h200 ⊢
    by_cases h1 : jsFalsy body.host || !isStr body.host || (jsTrim (strOf body.host) == "")
    · simp [h1] at h200
    · by_cases h2 : jsFalsy body.port || !isNum body.port ||
          decide (numOf body.port < 1) || decide (numOf body.port > 65535)
      · simp [h1, h2] at h200
      · simp [h1, h2, onEnd]

/-- Witness for C4 at concrete states and a valid switch request. -/
theorem reconnect_handling_witness :
    ((onEnd sampleState).state.connected = false) ∧
    ((onEnd sampleState).state.isPatrolling = false) ∧
    ((onEnd sampleState).reconnectScheduled = true ↔ sampleState.switchingServers = false) ∧
    (sampleState.switchingServers = true → (onEnd sampleState).state.switchingServers = false) ∧
    ((updateServer sampleConfig sampleState
        { host := some (.str "play.example.net"), port := some (.num 25566) }
        true true).status = 200 →
      (updateServer sampleConfig sampleState
        { host := some (.str "play.example.net"), port := some (.num 25566) }
        true true).state.switchingServers = true ∧
      (updateServer sampleConfig sampleState
        { host := some (.str "play.example.net"), port := some (.num 25566) }
        true true).actions =
        [.persistConfig, .setSwitchFlag, .quitBot, .scheduleReconnect] ∧
      (onEnd (updateServer sampleConfig sampleState
        { host := some (.str "play.example.net"), port := some (.num 25566) }
        true true).state).reconnectScheduled = false) :=
  reconnect_handling sampleState sampleState sampleConfig
    { host := some (.str "play.example.net"), port := some (.num 25566) }

/-- C9: the `spawn` handler unconditionally overwrites the center with
the spawn position (whatever center was configured or set before),
marks the bot connected, and schedules `startPatrolling` 2000 ms later
without user action. -/
theorem spawn_overwrites_center (s : BotState) (spawnPos : Point) :
    (onSpawn s spawnPos).state.center = spawnPos ∧
    (onSpawn s spawnPos).state.connected = true ∧
    (onSpawn s spawnPos).autostartScheduled = true ∧
    (onSpawn s spawnPos).autostartDelayMs = 2000 :=
  ⟨rfl, rfl, rfl, rfl⟩

/-- C10: `/api/toggle-patrol` always turns patrolling off when it is
on; when it is off it turns it on only if connected; disconnected and
idle, the response is still a success while `isPatrolling` stays
false. -/
theorem toggle_patrol_asymmetric (s : BotState) :
    (s.isPatrolling = true → (togglePatrol s).state.isPatrolling = false) ∧
    (s.isPatrolling = false → s.connected = true →
      (togglePatrol s).state.isPatrolling = true) ∧
    (s.isPatrolling = false → s.connected = false →
      (togglePatrol s).state.isPatrolling = false ∧ (togglePatrol s).status = 200) := by
  refine ⟨?_, ?_, ?_⟩
  · intro hp
    simp [togglePatrol, hp, stopPatrolling]
  · intro hp hc
    simp [togglePatrol, hp, startPatrolling, hc]
  · intro hp hc
    simp [togglePatrol, hp, startPatrolling, hc]

/-- Witness for C10 at the disconnected idle state. -/
theorem toggle_patrol_asymmetric_witness :
    (offState.isPatrolling = true → (togglePatrol offState).state.isPatrolling = false) ∧
    (offState.isPatrolling = false → offState.connected = true →
      (togglePatrol offState).state.isPatrolling = true) ∧
    (offState.isPatrolling = false → offState.connected = false →
      (togglePatrol offState).state.isPatrolling = false ∧
        (togglePatrol offState).status = 200) :=
  toggle_patrol_asymmetric offState

/-- The host check of `/api/update-server` passes exactly on a string
that is nonempty after trimming. -/
theorem hostCheck_false_iff (h : Option JSVal) :
    (jsFalsy h || !isStr h || (jsTrim (strOf h) == "")) = false ↔ validHost h := by
  cases h with
  | none => simp [jsFalsy, isStr, strOf, validHost]
  | some v =>
    cases v with
    | num q => simp [jsFalsy, isStr, strOf, validHost]
    | str t =>
      simp only [jsFalsy, isStr, strOf, Bool.not_true, Bool.false_or, validHost,
        Bool.or_eq_false_iff, beq_eq_false_iff_ne, ne_eq]
      constructor
      · rintro ⟨_, htrim⟩
        exact ⟨t, rfl, htrim⟩
      · rintro ⟨hs, heq, htrim⟩
        have hts : t = hs := by
          injection heq with h2
          injection h2 with h3
        subst hts
        refine ⟨⟨?_, trivial⟩, htrim⟩
        intro h0
        subst h0
        exact htrim (by decide)
    | boolean b => simp [jsFalsy, isStr, strOf, validHost]
    | null => simp [jsFalsy, isStr, strOf, validHost]

/-- The port check of `/api/update-server` passes exactly on a number
between 1 and 65535. -/
theorem portCheck_false_iff (p : Option JSVal) :
    (jsFalsy p || !isNum p || decide (numOf p < 1) ||
      decide (numOf p > 65535)) = false ↔ validPort p := by
  cases p with
  | none => simp [jsFalsy, isNum, numOf, validPort]
  | some v =>
    cases v with
    | num q =>
      simp only [jsFalsy, isNum, numOf, Bool.not_true, Bool.false_or, validPort,
        Bool.or_eq_false_iff, beq_eq_false_iff_ne, ne_eq, decide_eq_false_iff_not, not_lt]
      constructor
      · rintro ⟨⟨⟨h0, _⟩, h1⟩, h2⟩
        exact ⟨q, rfl, h1, h2⟩
      · rintro ⟨q', heq, h1, h2⟩
        have hqq : q = q' := by
          injection heq with h2'
          injection h2' with h3
        subst hqq
        refine ⟨⟨⟨?_, trivial⟩, h1⟩, h2⟩
        intro h0
        rw [h0] at h1
        norm_num at h1
    | str t => simp [jsFalsy, isNum, numOf, validPort]
    | boolean b => simp [jsFalsy, isNum, numOf, validPort]
    | null => simp [jsFalsy, isNum, numOf, validPort]

/-- C6: `/api/set-center` sets the center to exactly the given numeric
`x`, `y`, `z` and reports it back with success; when any coordinate is
missing or not a number it answers 400 and leaves the center alone. -/
theorem set_center_validation (s : BotState) (body : SetCenterBody) :
    (∀ x y z : ℚ, body.x = some (.num x) → body.y = some (.num y) → body.z = some (.num z) →
      (setCenter s body).state.center = { x := x, y := y, z := z } ∧
      (setCenter s body).status = 200 ∧
      (setCenter s body).returnedCenter = some { x := x, y := y, z := z }) ∧
    ((asNum body.x = none ∨ asNum body.y = none ∨ asNum body.z = none) →
      (setCenter s body).status = 400 ∧ (setCenter s body).state.center = s.center) := by
  constructor
  · intro x y z hx hy hz
    simp [setCenter, asNum, hx, hy, hz]
  · intro h
    cases hx : asNum body.x <;> cases hy : asNum body.y <;> cases hz : asNum body.z <;>
      simp_all [setCenter]

/-- Witness for C6: a body with a string `y` is rejected and a fully
numeric body is applied. -/
theorem set_center_validation_witness :
    (∀ x y z : ℚ,
      (SetCenterBody.mk (some (.num 3)) (some (.str "high")) (some (.num 4))).x =
        some (.num x) →
      (SetCenterBody.mk (some (.num 3)) (some (.str "high")) (some (.num 4))).y =
        some (.num y) →
      (SetCenterBody.mk (some (.num 3)) (some (.str "high")) (some (.num 4))).z =
        some (.num z) →
      (setCenter offState
        (SetCenterBody.mk (some (.num 3)) (some (.str "high")) (some (.num 4)))).state.center =
        { x := x, y := y, z := z } ∧
      (setCenter offState
        (SetCenterBody.mk (some (.num 3)) (some (.str "high")) (some (.num 4)))).status = 200 ∧
      (setCenter offState
        (SetCenterBody.mk (some (.num 3)) (some (.str "high")) (some (.num 4)))).returnedCenter =
        some { x := x, y := y, z := z }) ∧
    ((asNum (SetCenterBody.mk (some (.num 3)) (some (.str "high")) (some (.num 4))).x = none ∨
      asNum (SetCenterBody.mk (some (.num 3)) (some (.str "high")) (some (.num 4))).y = none ∨
      asNum (SetCenterBody.mk (some (.num 3)) (some (.str "high")) (some (.num 4))).z = none) →
      (setCenter offState
        (SetCenterBody.mk (some (.num 3)) (some (.str "high")) (some (.num 4)))).status = 400 ∧
      (setCenter offState
        (SetCenterBody.mk (some (.num 3)) (some (.str "high")) (some (.num 4)))).state.center =
        offState.center) :=
  set_center_validation offState
    (SetCenterBody.mk (some (.num 3)) (some (.str "high")) (some (.num 4)))

/-- C7: assuming the `config.json` write succeeds, `/api/update-server`
answers 200 exactly when the host is a string that is nonempty after
trimming and the port is a number in `[1, 65535]`; on success the
config holds the trimmed host and the port, the file is persisted, and
a 2000 ms reconnect is scheduled; on any invalid host or port it
answers 400, leaving the config unchanged and the file untouched. -/
theorem update_server_validation (config : Config) (s : BotState) (body : UpdateServerBody)
    (botExists : Bool) :
    ((updateServer config s body botExists true).status = 200 ↔
      validHost body.host ∧ validPort body.port) ∧
    (validHost body.host → validPort body.port →
      (updateServer config s body botExists true).config.server.host =
        jsTrim (strOf body.host) ∧
      (updateServer config s body botExists true).config.server.port = numOf body.port ∧
      (updateServer config s body botExists true).filePersisted = true ∧
      (updateServer config s body botExists true).reconnectDelayMs = some 2000) ∧
    (¬(validHost body.host ∧ validPort body.port) →
      (updateServer config s body botExists true).status = 400 ∧
      (updateServer config s body botExists true).config = config ∧
      (updateServer config s body botExists true).filePersisted = false) := by
  have hH := hostCheck_false_iff body.host
  have hP := portCheck_false_iff body.port
  by_cases h1 : (jsFalsy body.host || !isStr body.host || (jsTrim (strOf body.host) == "")) = true
  · have hnv : ¬ validHost body.host := by
      intro hv
      rw [← hH] at hv
      rw [hv] at h1
      exact Bool.false_ne_true h1
    refine ⟨?_, ?_, ?_⟩
    · simp [updateServer, h1, hnv]
    · intro hv
      exact absurd hv hnv
    · intro _
      simp [updateServer, h1]
  · have h1f : (jsFalsy body.host || !isStr body.host || (jsTrim (strOf body.host) == ""))
        = false := Bool.eq_false_iff.mpr h1
    have hv1 : validHost body.host := hH.mp h1f
    by_cases h2 : (jsFalsy body.port || !isNum body.port || decide (numOf body.port < 1) ||
        decide (numOf body.port > 65535)) = true
    · have hnv : ¬ validPort body.port := by
        intro hv
        rw [← hP] at hv
        rw [hv] at h2
        exact Bool.false_ne_true h2
      refine ⟨?_, ?_, ?_⟩
      · simp [updateServer, h1f, h2, hnv]
      · intro _ hv
        exact absurd hv hnv
      · intro _
        simp [updateServer, h1f, h2]
    · have h2f : (jsFalsy body.port || !isNum body.port || decide (numOf body.port < 1) ||
          decide (numOf body.port > 65535)) = false := Bool.eq_false_iff.mpr h2
      have hv2 : validPort body.port := hP.mp h2f
      refine ⟨?_, ?_, ?_⟩
      · simp only [updateServer, h1f, h2f, Bool.false_eq_true, if_false, Bool.not_true]
        cases botExists <;> simp [hv1, hv2]
      · intro _ _
        simp only [updateServer, h1f, h2f, Bool.false_eq_true, if_false, Bool.not_true]
        cases botExists <;> simp
      · intro hcontra
        exact absurd ⟨hv1, hv2⟩ hcontra

/-- Witness for C7 with a valid body (host padded with spaces, port in
range) and an invalid-port body handled through the negated branch. -/
theorem update_server_validation_witness :
    ((updateServer sampleConfig offState
        (UpdateServerBody.mk (some (.str " mc.example.org ")) (some (.num 8))) false
        true).status = 200 ↔
      validHost (UpdateServerBody.mk (some (.str " mc.example.org ")) (some (.num 8))).host ∧
      validPort (UpdateServerBody.mk (some (.str " mc.example.org ")) (some (.num 8))).port) ∧
    (validHost (UpdateServerBody.mk (some (.str " mc.example.org ")) (some (.num 8))).host →
      validPort (UpdateServerBody.mk (some (.str " mc.example.org ")) (some (.num 8))).port →
      (updateServer sampleConfig offState
        (UpdateServerBody.mk (some (.str " mc.example.org ")) (some (.num 8))) false
        true).config.server.host =
        jsTrim (strOf (UpdateServerBody.mk (some (.str " mc.example.org "))
          (some (.num 8))).host) ∧
      (updateServer sampleConfig offState
        (UpdateServerBody.mk (some (.str " mc.example.org ")) (some (.num 8))) false
        true).config.server.port =
        numOf (UpdateServerBody.mk (some (.str " mc.example.org ")) (some (.num 8))).port ∧
      (updateServer sampleConfig offState
        (UpdateServerBody.mk (some (.str " mc.example.org ")) (some (.num 8))) false
        true).filePersisted = true ∧
      (updateServer sampleConfig offState
        (UpdateServerBody.mk (some (.str " mc.example.org ")) (some (.num 8))) false
        true).reconnectDelayMs = some 2000) ∧
    (¬(validHost (UpdateServerBody.mk (some (.str " mc.example.org "))
          (some (.num 8))).host ∧
        validPort (UpdateServerBody.mk (some (.str " mc.example.org "))
          (some (.num 8))).port) →
      (updateServer sampleConfig offState
        (UpdateServerBody.mk (some (.str " mc.example.org ")) (some (.num 8))) false
        true).status = 400 ∧
      (updateServer sampleConfig offState
        (UpdateServerBody.mk (some (.str " mc.example.org ")) (some (.num 8))) false
        true).config = sampleConfig ∧
      (updateServer sampleConfig offState
        (UpdateServerBody.mk (some (.str " mc.example.org ")) (some (.num 8))) false
        true).filePersisted = false) :=
  update_server_validation sampleConfig offState
    (UpdateServerBody.mk (some (.str " mc.example.org ")) (some (.num 8))) false

/-- C8: the invariant "patrolling implies connected" is preserved by
every modelled state transition: `startPatrolling` only starts when
connected, and every transition that clears `connected` (`error`
handler, `end` handler, server switch, disconnect) clears
`isPatrolling` in the same step. -/
theorem patrolling_implies_connected (s : BotState) (config : Config)
    (scb : SetCenterBody) (usb : UpdateServerBody) (p raw : Point) (be wok : Bool)
    (h : PatrolInv s) :
    PatrolInv (startPatrolling s) ∧ PatrolInv (stopPatrolling s) ∧ PatrolInv (onError s) ∧
    PatrolInv (onEnd s).state ∧ PatrolInv (onSpawn s p).state ∧
    PatrolInv (onMove config s raw) ∧ PatrolInv (setCenter s scb).state ∧
    PatrolInv (togglePatrol s).state ∧
    PatrolInv (updateServer config s usb be wok).state ∧
    PatrolInv (disconnect s be).state := by
  refine ⟨?_, ?_, ?_, ?_, ?_, ?_, ?_, ?_, ?_, ?_⟩
  · unfold startPatrolling PatrolInv
    by_cases hc : (s.connected && !s.isPatrolling) = true <;> simp [hc] <;> simp_all [PatrolInv]
  · intro hp
    simp [stopPatrolling] at hp
  · intro hp
    simp [onError] at hp
  · unfold onEnd
    by_cases hsw : s.switchingServers = true <;> intro hp <;> simp_all
  · intro _
    rfl
  · unfold onMove PatrolInv
    by_cases hc : (s.connected && sqrtGT (distXZsq (roundPoint raw) s.center)
        (config.patrol.radius + 2)) = true <;> simp [hc] <;> exact h
  · unfold setCenter PatrolInv
    cases asNum scb.x <;> cases asNum scb.y <;> cases asNum scb.z <;> simp <;> exact h
  · unfold togglePatrol PatrolInv
    by_cases hp : s.isPatrolling = true
    · simp [hp, stopPatrolling]
    · simp only [hp, if_false]
      unfold startPatrolling
      by_cases hc : (s.connected && !s.isPatrolling) = true <;> simp [hc] <;> simp_all [PatrolInv]
  · unfold updateServer PatrolInv
    by_cases h1 : (jsFalsy usb.host || !isStr usb.host || (jsTrim (strOf usb.host) == ""))
        = true
    · simp [h1]
      exact h
    · have h1f := Bool.eq_false_iff.mpr h1
      by_cases h2 : (jsFalsy usb.port || !isNum usb.port || decide (numOf usb.port < 1) ||
          decide (numOf usb.port > 65535)) = true
      · simp [h1f, h2]
        exact h
      · have h2f := Bool.eq_false_iff.mpr h2
        cases wok
        · simp [h1f, h2f]
          exact h
        · cases be
          · simp [h1f, h2f]
            simp_all [PatrolInv]
          · simp [h1f, h2f]
  · intro hp
    simp [disconnect] at hp

/-- Witness for C8 at the connected, patrolling sample state. -/
theorem patrolling_implies_connected_witness :
    PatrolInv (startPatrolling sampleState) ∧ PatrolInv (stopPatrolling sampleState) ∧
    PatrolInv (onError sampleState) ∧ PatrolInv (onEnd sampleState).state ∧
    PatrolInv (onSpawn sampleState samplePoint).state ∧
    PatrolInv (onMove sampleConfig sampleState samplePoint) ∧
    PatrolInv (setCenter sampleState (SetCenterBody.mk none none none)).state ∧
    PatrolInv (togglePatrol sampleState).state ∧
    PatrolInv (updateServer sampleConfig sampleState
      (UpdateServerBody.mk none none) true true).state ∧
    PatrolInv (disconnect sampleState true).state :=
  patrolling_implies_connected sampleState sampleConfig (SetCenterBody.mk none none none)
    (UpdateServerBody.mk none none) samplePoint samplePoint true true
    (fun _ => rfl)

end Server247
